import Mathlib

/-!
Verification of the scan-lifecycle controller (`NmapRunner` in
`src/utils/nmap_runner.py`): command construction, subprocess supervision,
real-time output streaming, and stop/cancel coordination.

The Python class is shallowly embedded: the command builder is a pure
function returning `Except` (Python exceptions from `build_nmap_command`
become `Except.error`), and the controller's mutable fields
(`scan_thread`, `scan_process`, `stop_event`) become an explicit
`RunnerState` record threaded through the operations.  The supervision
loop `run_scan` runs against a `ScanScenario` describing what the external
world does: whether spawning fails, which stdout lines the subprocess
produces, whether reading raises, and at which loop iteration the
cancellation event is first observed set.
-/

namespace NmapRunner

/-- Python truthiness of an optional string value (`None` and `""` are falsy). -/
def optStrTruthy : Option String → Bool
  | none => false
  | some s => s ≠ ""

/-- The recognized scan options (`options` dict in the Python code).
Boolean fields collapse Python truthiness of the stored value; `scan_type`
is the optional string under the `"scan_type"` key (`none` when absent). -/
structure ScanOptions where
  scan_type : Option String := none
  service_scan : Bool := false
  os_detection : Bool := false
  aggressive_scan : Bool := false
  verbose : Bool := false
  no_ping : Bool := false
  deriving DecidableEq, Repr

/-- Whether `options.get("scan_type")` is truthy. -/
def scanTypeTruthy (o : ScanOptions) : Bool := optStrTruthy o.scan_type

/-- Python `str.split(": ")` on the character list: split on each
non-overlapping occurrence of `": "`, left to right.  Always returns at
least one part (the whole input when the separator never occurs). -/
def splitColonSpace : List Char → List (List Char)
  | [] => [[]]
  | ':' :: ' ' :: rest => [] :: splitColonSpace rest
  | c :: rest =>
    match splitColonSpace rest with
    | [] => [[c]]
    | h :: t => (c :: h) :: t

/-- Python `s.split(": ")` as a string operation. -/
def pySplitColonSpace (s : String) : List String :=
  (splitColonSpace s.data).map (fun l => ⟨l⟩)

/-- The exceptions `build_nmap_command` can raise: `ValueError` with its
message, or `IndexError` from `split(": ")[1]` on a malformed scan type. -/
inductive BuildErr where
  | valueError (msg : String)
  | indexError
  deriving DecidableEq, Repr

/-- The scan-type step of the builder: when `options.get("scan_type")` is
truthy the code appends `options["scan_type"].split(": ")[1]`; taking
index 1 raises `IndexError` when the split yields fewer than two parts
(i.e. the separator does not occur). -/
def scanTypeFlag (o : ScanOptions) : Except BuildErr (List String) :=
  if scanTypeTruthy o then
    match pySplitColonSpace (o.scan_type.getD "") with
    | _ :: flag :: _ => .ok [flag]
    | _ => .error .indexError
  else .ok []

/-- Embedding of `build_nmap_command(self, target, port_range, options)`.
Appends, in source order: the scan-type flag, `-p<range>` when
`port_range` is truthy, `-sV`, `-O`, `-A`, `-v`, `-Pn` for the truthy
boolean options, then the target, raising `ValueError` when `target` is
falsy.  The split of `scan_type` happens before the target check, as in
the source. -/
def build_nmap_command (target : String) (port_range : Option String)
    (o : ScanOptions) : Except BuildErr (List String) :=
  match scanTypeFlag o with
  | .error e => .error e
  | .ok fl =>
    let cmd := ["nmap"] ++ fl
      ++ (if optStrTruthy port_range then ["-p" ++ port_range.getD ""] else [])
      ++ (if o.service_scan then ["-sV"] else [])
      ++ (if o.os_detection then ["-O"] else [])
      ++ (if o.aggressive_scan then ["-A"] else [])
      ++ (if o.verbose then ["-v"] else [])
      ++ (if o.no_ping then ["-Pn"] else [])
    if target = "" then .error (.valueError "Target cannot be empty.")
    else .ok (cmd ++ [target])

/-- The flag the spec attributes to `scan_type`: the portion delimited by
the `": "` separator (element 1 of the split), total with default `""`. -/
def claimFlag (s : String) : String := (pySplitColonSpace s).getD 1 ""

/-- The command as the spec describes it: fixed order `nmap`, scan-type
flag, `-p<range>`, `-sV`, `-O`, `-A`, `-v`, `-Pn`, target, with falsy or
absent options contributing nothing.  Written from the spec's words, to be
compared with `build_nmap_command`. -/
def specCommand (target : String) (port_range : Option String)
    (o : ScanOptions) : List String :=
  ["nmap"]
  ++ (if scanTypeTruthy o then [claimFlag (o.scan_type.getD "")] else [])
  ++ (if optStrTruthy port_range then ["-p" ++ port_range.getD ""] else [])
  ++ (if o.service_scan then ["-sV"] else [])
  ++ (if o.os_detection then ["-O"] else [])
  ++ (if o.aggressive_scan then ["-A"] else [])
  ++ (if o.verbose then ["-v"] else [])
  ++ (if o.no_ping then ["-Pn"] else [])
  ++ [target]

/-- `scan_type`, when truthy, contains the `": "` separator — equivalently,
splitting on it yields at least two parts. -/
def scanTypeWellFormed (o : ScanOptions) : Prop :=
  scanTypeTruthy o = true → 2 ≤ (pySplitColonSpace (o.scan_type.getD "")).length

instance (o : ScanOptions) : Decidable (scanTypeWellFormed o) := by
  unfold scanTypeWellFormed; infer_instance

/-- The mutable controller fields of `NmapRunner`.
`scanThread` models `self.scan_thread`: `none` before any scan,
`some alive` once a thread object exists, with `alive = scan_thread.is_alive()`.
`scanProcess` models `self.scan_process`: `none` when the handle is `None`,
`some running` otherwise, with `running = (scan_process.poll() is None)`.
`stopEvent` models `self.stop_event.is_set()`. -/
structure RunnerState where
  scanThread : Option Bool := none
  scanProcess : Option Bool := none
  stopEvent : Bool := false
  deriving DecidableEq, Repr

/-- Python whitespace characters stripped by `str.strip()` (ASCII range). -/
def pyWhitespace (c : Char) : Bool :=
  c = ' ' || c = '\t' || c = '\n' || c = '\x0b' || c = '\x0c' || c = '\r'

/-- Python `line.strip()`: remove leading and trailing whitespace. -/
def pyStrip (s : String) : String :=
  ⟨((s.data.dropWhile pyWhitespace).reverse.dropWhile pyWhitespace).reverse⟩

/-- Trailing-only trim, written from the claim's words ("trimmed of
trailing whitespace only, leading whitespace preserved"), to be compared
with the source's `pyStrip`. -/
def claimRstrip (s : String) : String :=
  ⟨((s.data.reverse.dropWhile pyWhitespace)).reverse⟩

/-- Status messages emitted by the controller (verbatim from the source). -/
def stoppedMsg : String := "Scan stopped by user."

def completedMsg : String := "Scan completed successfully."

def alreadyInProgressMsg : String := "A scan is already in progress. Please wait."

def noActiveScanMsg : String := "No active scan to stop."

/-- The first line `run_scan` emits: `f"Starting scan: {' '.join(command)}"`. -/
def startingLine (command : List String) : String :=
  "Starting scan: " ++ String.intercalate " " command

/-- What the external world does during one execution of `run_scan`:
whether `subprocess.Popen` raises (and with what message), the stdout
lines the subprocess successfully yields, whether the stream raises after
those lines (I/O error while reading, with its message), and at which
loop iteration the stop event is first observed set (`stopAt = some k`
means the check before processing line `k` — 0-based — is the first that
sees the event set; the event, once set, stays set for the session). -/
structure ScanScenario where
  spawnErr : Option String := none
  outLines : List String := []
  readErr : Option String := none
  stopAt : Option Nat := none
  deriving DecidableEq, Repr

/-- The `for line in self.scan_process.stdout:` loop of `run_scan`: pull a
line; if the stop event is observed set, terminate the process, emit
`stoppedMsg` and return early (`true`); otherwise emit `line.strip()` and
continue.  `stopAt` here counts the remaining iterations until the event
is first observed (decremented as lines are consumed). -/
def streamLoop : Option Nat → List String → List String × Bool
  | _, [] => ([], false)
  | none, l :: rest =>
    let r := streamLoop none rest
    (pyStrip l :: r.1, r.2)
  | some 0, _ :: _ => ([stoppedMsg], true)
  | some (k + 1), l :: rest =>
    let r := streamLoop (some k) rest
    (pyStrip l :: r.1, r.2)

/-- Whether the stop event is set after `n` lines have been consumed. -/
def stopSetAfter (stopAt : Option Nat) (n : Nat) : Bool :=
  match stopAt with
  | some k => k ≤ n
  | none => false

/-- The `try`-block body of `run_scan`: the lines it emits through the
result callback, and the exception it raises, if any.  Emits the
`startingLine`, spawns (raising `spawnErr` if set), streams the output
through `streamLoop`, raises `readErr` (if set) when the stream ends
without an early stop, then waits and, if the stop event is not set,
emits `completedMsg`. -/
def runScanBody (command : List String) (sc : ScanScenario) :
    List String × Option String :=
  match sc.spawnErr with
  | some e => ([startingLine command], some e)
  | none =>
    let r := streamLoop sc.stopAt sc.outLines
    if r.2 then (startingLine command :: r.1, none)
    else
      match sc.readErr with
      | some e => (startingLine command :: r.1, some e)
      | none =>
        if stopSetAfter sc.stopAt sc.outLines.length then
          (startingLine command :: r.1, none)
        else (startingLine command :: r.1 ++ [completedMsg], none)

/-- The state after `run_scan` returns: the thread object exists but is no
longer alive, and the `finally: self.cleanup_process()` block (and, on the
cancellation path, `terminate_scan_process`) has set `scan_process = None`
and cleared the stop event. -/
def cleanExitState : RunnerState :=
  { scanThread := some false, scanProcess := none, stopEvent := false }

/-- Embedding of `run_scan(self, command)`: the `try` body runs; any
exception is caught by `except Exception as e`, which emits
`f"Error: {str(e)}"`; the `finally` block runs `cleanup_process` on every
path.  Returns the full callback transcript and the controller state once
the thread has finished. -/
def run_scan (command : List String) (sc : ScanScenario) :
    List String × RunnerState :=
  let r := runScanBody command sc
  match r.2 with
  | some e => (r.1 ++ ["Error: " ++ e], cleanExitState)
  | none => (r.1, cleanExitState)

/-- The lines `start_scan` emits, the state it leaves, and the command of
the session it spawned (if any). -/
structure StartOutcome where
  state : RunnerState
  emitted : List String
  spawned : Option (List String)
  deriving DecidableEq, Repr

/-- Embedding of `start_scan(self, target, port_range, options)`: if
`self.scan_thread and self.scan_thread.is_alive()`, emit
`alreadyInProgressMsg` and return; otherwise build the command — an
exception from the builder propagates to the caller (`Except.error`) —
then clear the stop event and start a new daemon thread running
`run_scan` on the command. -/
def start_scan (st : RunnerState) (target : String)
    (port_range : Option String) (o : ScanOptions) :
    Except BuildErr StartOutcome :=
  if st.scanThread = some true then
    .ok { state := st, emitted := [alreadyInProgressMsg], spawned := none }
  else
    match build_nmap_command target port_range o with
    | .error e => .error e
    | .ok cmd =>
      .ok { state := { scanThread := some true, scanProcess := st.scanProcess,
                       stopEvent := false },
            emitted := [], spawned := some cmd }

/-- Embedding of `stop_scan(self)`: if `self.scan_process` exists and
`poll()` is `None` (still running), set the stop event and call
`terminate_scan_process`, whose `finally` clears the process handle and
the stop event; otherwise emit `noActiveScanMsg` and change nothing. -/
def stop_scan (st : RunnerState) : RunnerState × List String :=
  if st.scanProcess = some true then
    ({ st with scanProcess := none, stopEvent := false }, [])
  else (st, [noActiveScanMsg])

/-- Whether the `": "` separator occurs in a character list. -/
def containsColonSpace : List Char → Bool
  | [] => false
  | ':' :: ' ' :: _ => true
  | _ :: rest => containsColonSpace rest

/-- Splitting always yields at least one part. -/
theorem splitColonSpace_length_pos (l : List Char) :
    1 ≤ (splitColonSpace l).length := by
  induction l using splitColonSpace.induct <;> simp_all [splitColonSpace]

/-- Splitting yields at least two parts exactly when the separator occurs. -/
theorem two_le_splitColonSpace_iff (l : List Char) :
    2 ≤ (splitColonSpace l).length ↔ containsColonSpace l = true := by
  induction l using splitColonSpace.induct with
  | case1 => simp [splitColonSpace, containsColonSpace]
  | case2 rest ih =>
    have := splitColonSpace_length_pos rest
    simp [splitColonSpace, containsColonSpace]
    omega
  | case3 c rest h1 h2 ih =>
    simp_all [splitColonSpace, containsColonSpace]
  | case4 c rest h1 h2 ih =>
    simp_all [splitColonSpace, containsColonSpace]

/-- Theorem for claim C3 needs: `getD 1` of a list with two known heads. -/
theorem getD_one_cons_cons {a b : String} {t : List String} :
    (a :: b :: t).getD 1 "" = b := rfl

/-- With no stop request, the stream loop strips and forwards every line. -/
theorem streamLoop_none (lines : List String) :
    streamLoop none lines = (lines.map pyStrip, false) := by
  induction lines with
  | nil => rfl
  | cons l rest ih => simp [streamLoop, ih]

/-- When the stop event is observed while lines remain, the loop forwards
the lines before the observation, emits `stoppedMsg`, and exits early. -/
theorem streamLoop_stop (lines : List String) (k : Nat) (hk : k < lines.length) :
    streamLoop (some k) lines = ((lines.take k).map pyStrip ++ [stoppedMsg], true) := by
  induction lines generalizing k with
  | nil => simp at hk
  | cons l rest ih =>
    cases k with
    | zero => rfl
    | succ k =>
      have hk' : k < rest.length := by simpa using hk
      simp [streamLoop, ih k hk']

/-- The starting line is never the completion message. -/
theorem startingLine_ne_completedMsg (c : List String) :
    startingLine c ≠ completedMsg := by
  intro h
  have h2 := congrArg String.data h
  simp [startingLine, completedMsg, String.append] at h2

/-- `run_scan` leaves the controller in the clean exit state on every path. -/
theorem run_scan_exitState (c : List String) (sc : ScanScenario) :
    (run_scan c sc).2 = cleanExitState := by
  unfold run_scan
  simp only []
  cases h : (runScanBody c sc).2 <;> simp [h]

/-- C3: for every non-empty target, optional port range and option set
(with a well-formed scan type, as extraction requires), the builder
returns exactly the spec's fixed-order command: `nmap`, the scan-type
flag, `-p<range>` when a port range is given, then `-sV`, `-O`, `-A`,
`-v`, `-Pn` for the truthy options, then the target; falsy or absent
options contribute no argument. -/
theorem build_matchesSpecOrder (target : String) (port_range : Option String)
    (o : ScanOptions) (htgt : target ≠ "")
    (hwf : scanTypeWellFormed o) :
    build_nmap_command target port_range o =
      Except.ok (specCommand target port_range o) := by
  unfold build_nmap_command specCommand
    scanTypeFlag claimFlag
  by_cases hst : scanTypeTruthy o = true
  · have h2 := hwf hst
    simp only [hst, if_true]
    rcases hsplit : pySplitColonSpace (o.scan_type.getD "") with _ | ⟨a, _ | ⟨b, t⟩⟩
    · rw [hsplit] at h2; simp at h2
    · rw [hsplit] at h2; simp at h2
    · simp [htgt, getD_one_cons_cons]
  · simp only [hst]
    simp [htgt, hst]

/-- Witness for C3 at the spec's own example:
`build("10.0.0.5", "20-80", {scan_type: "TCP SYN: -sS", service_scan: true})`
yields `["nmap", "-sS", "-p20-80", "-sV", "10.0.0.5"]`. -/
theorem build_matchesSpecOrder_witness :
    build_nmap_command "10.0.0.5" (some "20-80")
        { scan_type := some "TCP SYN: -sS", service_scan := true } =
      Except.ok ["nmap", "-sS", "-p20-80", "-sV", "10.0.0.5"] := by
  have h := build_matchesSpecOrder "10.0.0.5" (some "20-80")
    { scan_type := some "TCP SYN: -sS", service_scan := true }
    (by decide) (by decide)
  rw [h]
  rfl

/-- C1: when the stop event is first observed at iteration `k` while lines
remain (a scan cancelled mid-stream), the callback receives the
`"Starting scan: ..."` line, the stripped output lines before the
observation, then exactly `"Scan stopped by user."`; provided no
subprocess line aliases the completion message, `"Scan completed
successfully."` is never emitted for that session. -/
theorem cancelMidStream_output (c lines : List String) (k : Nat)
    (rerr : Option String) (hk : k < lines.length)
    (hna : ∀ l ∈ lines.take k, pyStrip l ≠ completedMsg) :
    run_scan c { outLines := lines, readErr := rerr, stopAt := some k } =
      (startingLine c :: (lines.take k).map pyStrip ++ [stoppedMsg],
        cleanExitState) ∧
    completedMsg ∉
      (run_scan c { outLines := lines, readErr := rerr, stopAt := some k }).1 := by
  have heq : run_scan c { outLines := lines, readErr := rerr, stopAt := some k } =
      (startingLine c :: (lines.take k).map pyStrip ++ [stoppedMsg],
        cleanExitState) := by
    simp [run_scan, runScanBody, streamLoop_stop lines k hk]
  refine ⟨heq, ?_⟩
  rw [heq]
  intro hmem
  rcases List.mem_cons.mp hmem with h | hmem2
  · exact startingLine_ne_completedMsg c h.symm
  · rcases List.mem_append.mp hmem2 with hmap | hsing
    · rcases List.mem_map.mp hmap with ⟨l, hl, hls⟩
      exact hna l hl hls
    · rw [List.mem_singleton] at hsing
      exact absurd hsing (by decide)

/-- Witness for C1: a scan over three output lines with the stop event
observed at the second iteration. -/
theorem cancelMidStream_output_witness :
    run_scan ["nmap", "h"] { outLines := ["a", "b", "c"], stopAt := some 1 } =
      (["Starting scan: nmap h", "a", "Scan stopped by user."],
        cleanExitState) ∧
    "Scan completed successfully." ∉
      (run_scan ["nmap", "h"] { outLines := ["a", "b", "c"], stopAt := some 1 }).1 :=
  cancelMidStream_output ["nmap", "h"] ["a", "b", "c"] 1 none
    (by decide) (by decide)

/-- C2 counterexample: calling start with no session active and an empty
target raises the builder's `ValueError` to the caller — it is not
surfaced as an emitted `"Error: ..."` line. -/
theorem start_emptyTarget_raises_cex :
    start_scan {} "" none {} =
      Except.error (BuildErr.valueError "Target cannot be empty.") := rfl

/-- C2 amended: for every call to start with no session active, a failure
of the command builder propagates to start's caller as the raised builder
exception; no line (in particular no `"Error: <message>"` line) is
emitted through the result callback. -/
theorem start_propagatesBuilderError (st : RunnerState) (t : String)
    (pr : Option String) (o : ScanOptions) (e : BuildErr)
    (hth : st.scanThread ≠ some true)
    (hb : build_nmap_command t pr o = .error e) :
    start_scan st t pr o = .error e := by
  unfold start_scan
  rw [if_neg hth, hb]

/-- Witness for the amended C2 at the idle state and empty target. -/
theorem start_propagatesBuilderError_witness :
    start_scan {} "" none {} =
      Except.error (BuildErr.valueError "Target cannot be empty.") :=
  start_propagatesBuilderError {} "" none {}
    (BuildErr.valueError "Target cannot be empty.") (by decide) rfl

/-- C4 counterexample: with an empty target but a truthy `scan_type`
lacking the `": "` separator, the builder fails with `IndexError`
(from `split(": ")[1]`), not with the `ValueError` ("InvalidArgument")
the claim requires regardless of other inputs. -/
theorem build_emptyTarget_cex :
    build_nmap_command "" none { scan_type := some "-sS" } =
      Except.error BuildErr.indexError := rfl

/-- C4 amended: build with an empty target always fails; it fails with
`ValueError "Target cannot be empty."` (the InvalidArgument condition)
whenever `scan_type` is absent, falsy, or contains the `": "` separator,
and with `IndexError` otherwise. -/
theorem build_emptyTarget_fails (pr : Option String) (o : ScanOptions) :
    (scanTypeWellFormed o →
      build_nmap_command "" pr o =
        Except.error (BuildErr.valueError "Target cannot be empty.")) ∧
    ∃ e, build_nmap_command "" pr o = Except.error e := by
  unfold build_nmap_command scanTypeFlag
  by_cases hst : scanTypeTruthy o = true
  · rw [if_pos hst]
    rcases hsplit : pySplitColonSpace (o.scan_type.getD "") with _ | ⟨a, _ | ⟨b, t⟩⟩
    · constructor
      · intro hwf
        have := hwf hst
        rw [hsplit] at this
        simp at this
      · exact ⟨BuildErr.indexError, rfl⟩
    · constructor
      · intro hwf
        have := hwf hst
        rw [hsplit] at this
        simp at this
      · exact ⟨BuildErr.indexError, rfl⟩
    · exact ⟨fun _ => rfl, ⟨BuildErr.valueError "Target cannot be empty.", rfl⟩⟩
  · rw [if_neg hst]
    exact ⟨fun _ => rfl, ⟨BuildErr.valueError "Target cannot be empty.", rfl⟩⟩

/-- Witness for the amended C4 with no options set. -/
theorem build_emptyTarget_fails_witness :
    build_nmap_command "" none {} =
      Except.error (BuildErr.valueError "Target cannot be empty.") :=
  (build_emptyTarget_fails none {}).1 (by decide)

/-- C5: while the session's thread is alive, start emits exactly the
"already in progress" line, spawns no session, and leaves the controller
state unchanged. -/
theorem start_whileActive_rejected (st : RunnerState) (t : String)
    (pr : Option String) (o : ScanOptions)
    (h : st.scanThread = some true) :
    start_scan st t pr o =
      Except.ok { state := st, emitted := [alreadyInProgressMsg],
                  spawned := none } := by
  unfold start_scan
  rw [if_pos h]

/-- Witness for C5 at a state with a live thread and running process. -/
theorem start_whileActive_rejected_witness :
    start_scan { scanThread := some true, scanProcess := some true }
        "10.0.0.5" none {} =
      Except.ok { state := { scanThread := some true, scanProcess := some true },
                  emitted := [alreadyInProgressMsg], spawned := none } :=
  start_whileActive_rejected
    { scanThread := some true, scanProcess := some true } "10.0.0.5" none {}
    (by decide)

/-- C6: when no process handle exists or the process has already exited,
stop emits exactly `"No active scan to stop."` and leaves the whole
controller state (thread handle, process handle, stop event) unchanged. -/
theorem stop_noActive_noop (st : RunnerState)
    (h : st.scanProcess ≠ some true) :
    stop_scan st = (st, [noActiveScanMsg]) := by
  unfold stop_scan
  rw [if_neg h]

/-- Witness for C6 at a state whose process has already exited. -/
theorem stop_noActive_noop_witness :
    stop_scan { scanThread := some false, scanProcess := some false,
                stopEvent := true } =
      ({ scanThread := some false, scanProcess := some false,
         stopEvent := true }, [noActiveScanMsg]) :=
  stop_noActive_noop
    { scanThread := some false, scanProcess := some false, stopEvent := true }
    (by decide)

/-- C7 counterexample: the loop emits `line.strip()`, which removes
leading whitespace as well: the line `"  open  "` is delivered as
`"open"`, not as the trailing-only trim `"  open"` the claim predicts. -/
theorem stream_strip_cex :
    (run_scan ["nmap", "10.0.0.5"] { outLines := ["  open  "] }).1 =
      ["Starting scan: nmap 10.0.0.5", "open", "Scan completed successfully."] ∧
    claimRstrip "  open  " = "  open" ∧
    ("open" : String) ≠ "  open" := ⟨rfl, rfl, by decide⟩

/-- C7 amended: for every scan that completes normally, each subprocess
output line is delivered trimmed of both leading and trailing whitespace
(Python `str.strip()`), in the subprocess's emission order, preceded by
the `"Starting scan: <space-joined command>"` line and followed by
`"Scan completed successfully."`, with nothing emitted afterwards. -/
theorem completedScan_output (c lines : List String) :
    run_scan c { outLines := lines } =
      (startingLine c :: lines.map pyStrip ++ [completedMsg],
        cleanExitState) := by
  simp [run_scan, runScanBody, streamLoop_none, stopSetAfter]

/-- C8: on every exit path of the supervision loop the process handle and
the stop event are cleared, and a subsequent start on the resulting state
is accepted: it spawns a new session with the built command instead of
being rejected as already in progress. -/
theorem sessionExit_readyForStart (c : List String) (sc : ScanScenario)
    (t : String) (pr : Option String) (o : ScanOptions) (cmd : List String)
    (hb : build_nmap_command t pr o = .ok cmd) :
    (run_scan c sc).2.scanProcess = none ∧
    (run_scan c sc).2.stopEvent = false ∧
    start_scan (run_scan c sc).2 t pr o =
      Except.ok { state := { scanThread := some true, scanProcess := none,
                             stopEvent := false },
                  emitted := [], spawned := some cmd } := by
  rw [run_scan_exitState]
  refine ⟨rfl, rfl, ?_⟩
  unfold start_scan
  rw [if_neg (by decide), hb]
  rfl

/-- Witness for C8: after a completed scan, starting a fresh scan on the
exit state is accepted. -/
theorem sessionExit_readyForStart_witness :
    (run_scan ["nmap", "h"] { outLines := ["a"] }).2.scanProcess = none ∧
    (run_scan ["nmap", "h"] { outLines := ["a"] }).2.stopEvent = false ∧
    start_scan (run_scan ["nmap", "h"] { outLines := ["a"] }).2
        "10.0.0.5" none {} =
      Except.ok { state := { scanThread := some true, scanProcess := none,
                             stopEvent := false },
                  emitted := [], spawned := some ["nmap", "10.0.0.5"] } :=
  sessionExit_readyForStart ["nmap", "h"] { outLines := ["a"] }
    "10.0.0.5" none {} ["nmap", "10.0.0.5"] rfl

/-- C9: every failure inside the supervision loop — a spawn failure or a
read failure — is emitted as `"Error: <message>"` through the result
callback, the loop returns normally (no exception escapes the embedded
function), and cleanup still runs, leaving the clean exit state. -/
theorem supervisionLoop_errorHandling (c lines : List String) (e : String)
    (rerr : Option String) (sa : Option Nat) :
    run_scan c { spawnErr := some e, outLines := lines, readErr := rerr,
                 stopAt := sa } =
      ([startingLine c, "Error: " ++ e], cleanExitState) ∧
    run_scan c { outLines := lines, readErr := some e } =
      (startingLine c :: lines.map pyStrip ++ ["Error: " ++ e],
        cleanExitState) := by
  constructor
  · simp [run_scan, runScanBody]
  · simp [run_scan, runScanBody, streamLoop_none, stopSetAfter]

/-- C10: for every target and port range, a truthy `scan_type` that does
not contain the `": "` separator makes the builder raise `IndexError`
(from `split(": ")[1]`), not return a command and not raise the
`ValueError` InvalidArgument condition. -/
theorem build_malformedScanType_raises (t : String) (pr : Option String)
    (o : ScanOptions) (hst : scanTypeTruthy o = true)
    (hsep : containsColonSpace (o.scan_type.getD "").data = false) :
    build_nmap_command t pr o = Except.error BuildErr.indexError := by
  have hlen : ¬ 2 ≤ (pySplitColonSpace (o.scan_type.getD "")).length := by
    rw [pySplitColonSpace, List.length_map, two_le_splitColonSpace_iff, hsep]
    simp
  unfold build_nmap_command scanTypeFlag
  rw [if_pos hst]
  rcases hsplit : pySplitColonSpace (o.scan_type.getD "") with _ | ⟨a, _ | ⟨b, tl⟩⟩
  · rfl
  · rfl
  · rw [hsplit] at hlen
    simp at hlen

/-- Witness for C10: a truthy scan type `"-sS"` without the separator, a
non-empty target. -/
theorem build_malformedScanType_raises_witness :
    build_nmap_command "10.0.0.5" (some "20-80") { scan_type := some "-sS" } =
      Except.error BuildErr.indexError :=
  build_malformedScanType_raises "10.0.0.5" (some "20-80")
    { scan_type := some "-sS" } (by decide) (by decide)

end NmapRunner
